import Mathlib

/-!
Verification of the otis-scribe-engine audio core: the voice-activity
state machine (`audio/vad.py`) and the recording session stop/finalize
logic (`audio/recorder.py`), shallowly embedded in Lean 4.

Durations, thresholds and audio samples are modelled as rationals; the
neural speech scorer is an opaque parameter `scorer : List ℚ → ℚ`
(`SpeechScorer` in the spec), so all state-machine claims are proved for
every possible sequence of frame probabilities.
-/

namespace OtisScribe

/-- The `VoiceState` enum from `audio/vad.py`. -/
inductive VoiceState where
  | SPEECH
  | SHORT_PAUSE
  | LONG_PAUSE
  | SILENCE
  deriving DecidableEq, Repr

/-- The `VADConfig` dataclass from `audio/vad.py` (a plain dataclass with
defaults; its generated constructor performs no validation). -/
structure VADConfig where
  sample_rate : ℤ := 16000
  threshold_speech : ℚ := 1/2
  silence_duration_short : ℚ := 4/5
  silence_duration_long : ℚ := 3/2
  silence_duration_max : ℚ := 5/2
  min_speech_duration : ℚ := 1/2
  deriving DecidableEq, Repr

/-- The spec (§7) demands a `ConfigError` raised at `VADConfig`
construction for invalid configurations. -/
inductive ConfigError where
  | invalidConfig
  deriving DecidableEq, Repr

/-- The `VADConfig` constructor as generated by `@dataclass` in
`audio/vad.py` lines 14-22: it stores the fields and performs no
validation, hence never fails.  Wrapped in `Except ConfigError` so that
the absence of a construction-time failure is observable. -/
def mkVADConfig (sr : ℤ) (ts sds sdl sdm msd : ℚ) :
    Except ConfigError VADConfig :=
  .ok { sample_rate := sr, threshold_speech := ts,
        silence_duration_short := sds, silence_duration_long := sdl,
        silence_duration_max := sdm, min_speech_duration := msd }

/-- Modelled from the spec (§3, §7): a validating `VADConfig`
constructor that fails fast with `ConfigError` when the silence
durations are not strictly increasing or the sample rate is not
positive.  No such validation exists anywhere in the source; this
definition follows the spec words, for comparison with `mkVADConfig`. -/
def mkVADConfigSpec (sr : ℤ) (ts sds sdl sdm msd : ℚ) :
    Except ConfigError VADConfig :=
  if sds < sdl ∧ sdl < sdm ∧ 0 < sr then
    .ok { sample_rate := sr, threshold_speech := ts,
          silence_duration_short := sds, silence_duration_long := sdl,
          silence_duration_max := sdm, min_speech_duration := msd }
  else
    .error .invalidConfig

/-- The mutable per-session state of `VoiceActivityDetector`
(`audio/vad.py` lines 44-47). -/
structure VADState where
  silence_duration : ℚ
  speech_duration : ℚ
  current_state : VoiceState
  valid_speech_detected : Bool
  deriving DecidableEq, Repr

/-- Initial detector state set in `VoiceActivityDetector.__init__`
(`audio/vad.py` lines 44-47). -/
def initVAD : VADState :=
  { silence_duration := 0, speech_duration := 0,
    current_state := .SILENCE, valid_speech_detected := false }

/-- Method `VoiceActivityDetector.reset` (`audio/vad.py` lines 128-133). -/
def reset (_s : VADState) : VADState :=
  { silence_duration := 0, speech_duration := 0,
    current_state := .SILENCE, valid_speech_detected := false }

/-- Method `VoiceActivityDetector._update_state_based_on_silence`
(`audio/vad.py` lines 89-98).  The guarded inner `if` on the max branch
only skips a redundant reassignment (plus a print), so the net effect on
the state is the plain cascade. -/
def update_state_based_on_silence (cfg : VADConfig) (s : VADState) :
    VADState :=
  if s.silence_duration ≥ cfg.silence_duration_max then
    { s with current_state := .SILENCE }
  else if s.silence_duration ≥ cfg.silence_duration_long then
    { s with current_state := .LONG_PAUSE }
  else if s.silence_duration ≥ cfg.silence_duration_short then
    { s with current_state := .SHORT_PAUSE }
  else
    s

/-- The state-update portion of `VoiceActivityDetector.process_audio`
(`audio/vad.py` lines 75-87), given the speech probability returned by
the scorer for the frame. -/
def vad_step (cfg : VADConfig) (fd : ℚ) (s : VADState) (prob : ℚ) :
    VADState :=
  if prob > cfg.threshold_speech then
    let s1 : VADState :=
      { s with silence_duration := 0,
               speech_duration := s.speech_duration + fd,
               current_state := .SPEECH }
    if s1.speech_duration ≥ cfg.min_speech_duration then
      { s1 with valid_speech_detected := true }
    else
      s1
  else
    let s1 : VADState :=
      { s with silence_duration := s.silence_duration + fd,
               speech_duration := 0 }
    update_state_based_on_silence cfg s1

/-- Processing a scripted sequence of frame probabilities, one
`process_audio` call per frame, all with the same frame duration. -/
def run_vad (cfg : VADConfig) (fd : ℚ) (s : VADState) (probs : List ℚ) :
    VADState :=
  probs.foldl (vad_step cfg fd) s

/-- Method `VoiceActivityDetector.should_stop_recording`
(`audio/vad.py` lines 100-107). -/
def should_stop_recording (s : VADState) : Bool :=
  s.current_state = .SILENCE

/-- Computes `np.max(np.abs(data))` on a list of samples, extended with value `0`
on the empty list so it is total (the sources only apply it to non-empty
data, where it is the true maximum absolute sample). -/
def maxAbs (data : List ℚ) : ℚ :=
  (data.map (fun x => |x|)).foldl max 0

/-- The frame-length normalization in `VoiceActivityDetector.process_audio`
(`audio/vad.py` lines 61-66): zero-pad a short chunk to 512 samples,
truncate a long one. -/
def pad_truncate (chunk : List ℚ) : List ℚ :=
  let required := 512
  if chunk.length ≠ required then
    if chunk.length < required then
      chunk ++ List.replicate (required - chunk.length) 0
    else
      chunk.take required
  else
    chunk

/-- The amplitude normalization in `VoiceActivityDetector.process_audio`
(`audio/vad.py` lines 68-70): divide the (padded/truncated) frame by its
peak absolute sample unless that peak is zero. -/
def prep_frame (chunk : List ℚ) : List ℚ :=
  let padded := pad_truncate chunk
  let peak := maxAbs padded
  if peak > 0 then padded.map (fun x => x / peak) else padded

/-- Method `VoiceActivityDetector.process_audio` (`audio/vad.py` lines 49-87),
with the Silero model abstracted as `scorer` (the spec's `SpeechScorer`):
normalize the frame, score it, update the detector state, and return the
new state together with the triple the method returns. -/
def process_audio (scorer : List ℚ → ℚ) (cfg : VADConfig) (s : VADState)
    (chunk : List ℚ) (fd : ℚ) : VADState × (VoiceState × ℚ × Bool) :=
  let prob := scorer (prep_frame chunk)
  let s1 := vad_step cfg fd s prob
  (s1, (s1.current_state, prob, s1.valid_speech_detected))

/-- The mutable capture state of `AudioRecorder`
(`audio/recorder.py` lines 32-46) that the per-frame logic touches. -/
structure RecorderState where
  recording_data : List ℚ
  buffer : List ℚ
  vad : VADState
  speech_detected : Bool
  is_recording : Bool
  stop_requested : Bool
  deriving DecidableEq, Repr

/-- Method `AudioRecorder.audio_callback` (`audio/recorder.py` lines 48-71) for
one delivered chunk `indata`: append to the recording buffer and the
sliding window; if the window holds a full 512-sample block, run the VAD
on it, latch `speech_detected`, and stop (raise `sd.CallbackStop`, the
returned `Bool`) when a manual stop was requested or validated speech
has gone silent; otherwise consume the block from the window. -/
def audio_callback (scorer : List ℚ → ℚ) (cfg : VADConfig)
    (s : RecorderState) (indata : List ℚ) : RecorderState × Bool :=
  let rd := s.recording_data ++ indata
  let buf := s.buffer ++ indata
  if buf.length ≥ 512 then
    let chunk := buf.take 512
    let fd : ℚ := 512 / 16000
    let r := process_audio scorer cfg s.vad chunk fd
    let vad1 := r.1
    let valid_speech := r.2.2.2
    let sd := if valid_speech then true else s.speech_detected
    if s.stop_requested || (sd && should_stop_recording vad1) then
      ({ s with recording_data := rd, buffer := buf, vad := vad1,
                speech_detected := sd, is_recording := false }, true)
    else
      ({ s with recording_data := rd, buffer := buf.drop 512, vad := vad1,
                speech_detected := sd }, false)
  else
    ({ s with recording_data := rd, buffer := buf }, false)

/-- The error raised by `AudioRecorder._save_recording` on an empty
buffer (`audio/recorder.py` line 151, `ValueError("No audio data to
save")`; the spec calls it `EmptyRecordingError`). -/
inductive SaveError where
  | emptyRecording
  deriving DecidableEq, Repr

/-- Method `AudioRecorder._save_recording` (`audio/recorder.py` lines 143-170):
fail on an empty buffer, otherwise peak-normalize the whole buffer and
write it.  The written audio artifact is modelled as the normalized
sample list; `elapsed` stands for the wall-clock
`time.time() - self.start_time` duration, an external input. -/
def save_recording (data : List ℚ) (elapsed : ℚ) :
    Except SaveError (List ℚ × ℚ) :=
  if data = [] then
    .error .emptyRecording
  else
    let audio := if maxAbs data > 0
      then data.map (fun x => x / maxAbs data) else data
    .ok (audio, elapsed)

/-- Method `AudioRecorder.stop_recording` (`audio/recorder.py` lines 129-141)
after its wait loop has observed `is_recording = False` (the
precondition under which the method proceeds): save the recording when
any data was captured, else return `(None, 0)`. -/
def stop_recording (s : RecorderState) (elapsed : ℚ) :
    Except SaveError (Option (List ℚ) × ℚ) :=
  if s.recording_data ≠ [] then
    (save_recording s.recording_data elapsed).map
      (fun r => (some r.1, r.2))
  else
    .ok (none, 0)

/-- The default configuration `VADConfig()` (`audio/vad.py` line 34),
used whenever no custom config is supplied. -/
def defaultVADConfig : VADConfig := {}

/-! ## Helper lemmas -/

lemma update_state_preserves_durations (cfg : VADConfig) (s : VADState) :
    (update_state_based_on_silence cfg s).silence_duration =
        s.silence_duration ∧
    (update_state_based_on_silence cfg s).speech_duration =
        s.speech_duration ∧
    (update_state_based_on_silence cfg s).valid_speech_detected =
        s.valid_speech_detected := by
  unfold update_state_based_on_silence
  split
  · exact ⟨rfl, rfl, rfl⟩
  · split
    · exact ⟨rfl, rfl, rfl⟩
    · split
      · exact ⟨rfl, rfl, rfl⟩
      · exact ⟨rfl, rfl, rfl⟩

lemma vad_step_valid_mono (cfg : VADConfig) (fd : ℚ) (s : VADState)
    (prob : ℚ) (h : s.valid_speech_detected = true) :
    (vad_step cfg fd s prob).valid_speech_detected = true := by
  unfold vad_step
  split
  · by_cases hm : s.speech_duration + fd ≥ cfg.min_speech_duration
    · simp [hm]
    · simp [hm, h]
  · rw [(update_state_preserves_durations cfg _).2.2]
    exact h

lemma run_vad_valid_mono (cfg : VADConfig) (fd : ℚ) (probs : List ℚ) :
    ∀ s : VADState, s.valid_speech_detected = true →
      (run_vad cfg fd s probs).valid_speech_detected = true := by
  induction probs with
  | nil => exact fun s h => h
  | cons p ps ih =>
      intro s h
      exact ih _ (vad_step_valid_mono cfg fd s p h)

lemma foldl_max_init_le (l : List ℚ) (a : ℚ) : a ≤ l.foldl max a := by
  induction l generalizing a with
  | nil => exact le_refl a
  | cons x xs ih => exact le_trans (le_max_left a x) (ih _)

lemma foldl_max_mem_le (l : List ℚ) (a b : ℚ) (hb : b ∈ l) :
    b ≤ l.foldl max a := by
  induction l generalizing a with
  | nil => cases hb
  | cons x xs ih =>
      rcases List.mem_cons.mp hb with h | h
      · subst h
        exact le_trans (le_max_right a b) (foldl_max_init_le xs _)
      · exact ih _ h

lemma foldl_max_le (l : List ℚ) (a c : ℚ) (ha : a ≤ c)
    (hl : ∀ x ∈ l, x ≤ c) : l.foldl max a ≤ c := by
  induction l generalizing a with
  | nil => exact ha
  | cons x xs ih =>
      exact ih _ (max_le ha (hl x (by simp)))
        (fun y hy => hl y (List.mem_cons_of_mem x hy))

lemma maxAbs_nonneg (l : List ℚ) : 0 ≤ maxAbs l :=
  foldl_max_init_le _ 0

lemma abs_le_maxAbs (l : List ℚ) (x : ℚ) (hx : x ∈ l) :
    |x| ≤ maxAbs l :=
  foldl_max_mem_le _ 0 |x| (List.mem_map_of_mem _ hx)

lemma maxAbs_eq_zero_iff (l : List ℚ) :
    maxAbs l = 0 ↔ ∀ x ∈ l, x = 0 := by
  constructor
  · intro h x hx
    have hle := abs_le_maxAbs l x hx
    rw [h] at hle
    exact abs_eq_zero.mp (le_antisymm hle (abs_nonneg x))
  · intro h
    refine le_antisymm (foldl_max_le _ 0 0 le_rfl ?_) (maxAbs_nonneg l)
    intro y hy
    rcases List.mem_map.mp hy with ⟨x, hx, rfl⟩
    rw [h x hx]
    simp

lemma foldl_max_div (l : List ℚ) (a p : ℚ) (hp : 0 ≤ p) :
    (l.map (fun x => x / p)).foldl max (a / p) = (l.foldl max a) / p := by
  induction l generalizing a with
  | nil => rfl
  | cons x xs ih =>
      simp only [List.map_cons, List.foldl_cons]
      rw [max_div_div_right hp a x]
      exact ih (max a x)

lemma maxAbs_map_div (l : List ℚ) (p : ℚ) (hp : 0 < p) :
    maxAbs (l.map (fun x => x / p)) = maxAbs l / p := by
  unfold maxAbs
  rw [List.map_map]
  have hcomp : ((fun x : ℚ => |x|) ∘ fun x => x / p) =
      fun x : ℚ => |x| / p := by
    funext x
    rw [Function.comp_apply, abs_div, abs_of_pos hp]
  rw [hcomp]
  have hfold := foldl_max_div (l.map (fun x => |x|)) 0 p (le_of_lt hp)
  rw [zero_div, List.map_map] at hfold
  exact hfold

lemma vad_step_nonspeech (cfg : VADConfig) (fd : ℚ) (s : VADState)
    (p : ℚ) (h : ¬ p > cfg.threshold_speech) :
    (vad_step cfg fd s p).silence_duration = s.silence_duration + fd ∧
    (vad_step cfg fd s p).current_state =
      (if s.silence_duration + fd ≥ cfg.silence_duration_max then
        VoiceState.SILENCE
       else if s.silence_duration + fd ≥ cfg.silence_duration_long then
        VoiceState.LONG_PAUSE
       else if s.silence_duration + fd ≥ cfg.silence_duration_short then
        VoiceState.SHORT_PAUSE
       else s.current_state) := by
  constructor
  · simp only [vad_step, if_neg h]
    exact (update_state_preserves_durations cfg _).1
  · simp only [vad_step, if_neg h, update_state_based_on_silence]
    split
    · rfl
    · split
      · rfl
      · split
        · rfl
        · rfl

lemma vad_step_speech_state (cfg : VADConfig) (fd : ℚ) (s : VADState)
    (p : ℚ) (h : p > cfg.threshold_speech) :
    (vad_step cfg fd s p).current_state = VoiceState.SPEECH ∧
    (vad_step cfg fd s p).silence_duration = 0 := by
  simp only [vad_step, if_pos h]
  split
  · exact ⟨rfl, rfl⟩
  · exact ⟨rfl, rfl⟩

lemma run_vad_speech_run (cfg : VADConfig) (fd : ℚ) :
    ∀ sp : List ℚ, sp ≠ [] → (∀ p ∈ sp, p > cfg.threshold_speech) →
      ∀ s : VADState,
        (run_vad cfg fd s sp).current_state = VoiceState.SPEECH ∧
        (run_vad cfg fd s sp).silence_duration = 0 := by
  intro sp
  induction sp with
  | nil => intro h; exact absurd rfl h
  | cons p ps ih =>
      intro _ hall s
      by_cases hps : ps = []
      · subst hps
        simpa [run_vad] using
          vad_step_speech_state cfg fd s p (hall p (by simp))
      · have hrw : run_vad cfg fd s (p :: ps) =
            run_vad cfg fd (vad_step cfg fd s p) ps := by
          simp [run_vad]
        rw [hrw]
        exact ih hps (fun q hq => hall q (List.mem_cons_of_mem p hq)) _

lemma run_vad_silence_run (cfg : VADConfig) (fd : ℚ) (hfd : 0 < fd)
    (si : List ℚ) (hsi : ∀ p ∈ si, ¬ p > cfg.threshold_speech)
    (s : VADState) (hst : s.current_state = VoiceState.SPEECH)
    (hsd : s.silence_duration = 0) :
    ∀ k : ℕ, k ≤ si.length →
      (run_vad cfg fd s (si.take k)).silence_duration = k * fd ∧
      ((run_vad cfg fd s (si.take k)).current_state = VoiceState.SILENCE ↔
        1 ≤ k ∧ cfg.silence_duration_max ≤ k * fd) := by
  intro k
  induction k with
  | zero =>
      intro _
      refine ⟨by simpa [run_vad] using hsd, ?_⟩
      simp [run_vad, hst]
  | succ k ih =>
      intro hk1
      have hklt : k < si.length := hk1
      obtain ⟨hsdk, hstk⟩ := ih (Nat.le_of_succ_le hk1)
      have htake : si.take (k + 1) = si.take k ++ [si[k]] := by
        rw [← List.take_concat_get si k hklt]
        simp
      have hrun : run_vad cfg fd s (si.take (k + 1)) =
          vad_step cfg fd (run_vad cfg fd s (si.take k)) si[k] := by
        simp only [run_vad, htake, List.foldl_append, List.foldl_cons,
          List.foldl_nil]
      have hnsp : ¬ si[k] > cfg.threshold_speech :=
        hsi _ (List.getElem_mem hklt)
      obtain ⟨h1, h2⟩ :=
        vad_step_nonspeech cfg fd (run_vad cfg fd s (si.take k))
          si[k] hnsp
      have hcast : ((k + 1 : ℕ) : ℚ) * fd = (k : ℚ) * fd + fd := by
        push_cast
        ring
      constructor
      · rw [hrun, h1, hsdk, hcast]
      · rw [hrun, h2, hsdk]
        by_cases hmax : (k : ℚ) * fd + fd ≥ cfg.silence_duration_max
        · rw [if_pos hmax]
          exact iff_of_true rfl
            ⟨Nat.le_add_left 1 k, by rw [hcast]; exact hmax⟩
        · have hrhs : ¬ (1 ≤ k + 1 ∧
              cfg.silence_duration_max ≤ ((k + 1 : ℕ) : ℚ) * fd) := by
            rintro ⟨-, hle⟩
            rw [hcast] at hle
            exact hmax hle
          rw [if_neg hmax]
          split
          · exact iff_of_false (by simp) hrhs
          · split
            · exact iff_of_false (by simp) hrhs
            · rw [hstk]
              refine iff_of_false ?_ hrhs
              rintro ⟨-, hmk⟩
              apply hmax
              linarith

/-- The scaling constant that finalization applies to the whole buffer:
the reciprocal of the global peak when the peak is positive, and 1 (the
buffer is unchanged) when the buffer is all-zero. -/
def normalization_scale (data : List ℚ) : ℚ :=
  if 0 < maxAbs data then (maxAbs data)⁻¹ else 1

/-! ## Claim theorems -/

/-- C2: on a non-speech frame the new state is derived from the updated
cumulative silence duration by checking the thresholds in descending
order (max ⇒ Silence, long ⇒ LongPause, short ⇒ ShortPause), and below
every threshold the state is left unchanged (grace period). -/
theorem C2_silence_state_cascade (cfg : VADConfig) (fd : ℚ) (s : VADState)
    (prob : ℚ) (h : ¬ prob > cfg.threshold_speech) :
    (vad_step cfg fd s prob).current_state =
      (if s.silence_duration + fd ≥ cfg.silence_duration_max then
        VoiceState.SILENCE
       else if s.silence_duration + fd ≥ cfg.silence_duration_long then
        VoiceState.LONG_PAUSE
       else if s.silence_duration + fd ≥ cfg.silence_duration_short then
        VoiceState.SHORT_PAUSE
       else s.current_state) := by
  simp only [vad_step, if_neg h, update_state_based_on_silence]
  split
  · rfl
  · split
    · rfl
    · split
      · rfl
      · rfl

/-- Witness for C2 at a concrete input: one non-speech frame (probability
0) after one second of silence on the default config lands in the
ShortPause band. -/
theorem C2_silence_state_cascade_witness :
    (¬ (0:ℚ) > defaultVADConfig.threshold_speech) ∧
    (vad_step defaultVADConfig 1
        ⟨0, 0, VoiceState.SPEECH, false⟩ 0).current_state =
      (if (0:ℚ) + 1 ≥ defaultVADConfig.silence_duration_max then
        VoiceState.SILENCE
       else if (0:ℚ) + 1 ≥ defaultVADConfig.silence_duration_long then
        VoiceState.LONG_PAUSE
       else if (0:ℚ) + 1 ≥ defaultVADConfig.silence_duration_short then
        VoiceState.SHORT_PAUSE
       else VoiceState.SPEECH) :=
  ⟨by norm_num [defaultVADConfig],
   C2_silence_state_cascade defaultVADConfig 1
     ⟨0, 0, VoiceState.SPEECH, false⟩ 0
     (by norm_num [defaultVADConfig])⟩

/-- C3: a frame is classified as speech iff its probability is strictly
greater than `threshold_speech`; on a speech frame the silence duration
resets to 0, the speech duration grows by the frame duration, the state
becomes Speech, and `valid_speech_detected` becomes true exactly once
the speech duration reaches `min_speech_duration` (otherwise keeping its
old value); on a non-speech frame the speech duration resets to 0 and
the silence duration grows by the frame duration. -/
theorem C3_frame_classification (cfg : VADConfig) (fd : ℚ) (s : VADState)
    (prob : ℚ) :
    (prob > cfg.threshold_speech →
      vad_step cfg fd s prob =
        { silence_duration := 0,
          speech_duration := s.speech_duration + fd,
          current_state := VoiceState.SPEECH,
          valid_speech_detected :=
            s.valid_speech_detected ||
              decide (s.speech_duration + fd ≥ cfg.min_speech_duration) })
    ∧ (¬ prob > cfg.threshold_speech →
        (vad_step cfg fd s prob).speech_duration = 0 ∧
        (vad_step cfg fd s prob).silence_duration =
          s.silence_duration + fd) := by
  constructor
  · intro h
    by_cases hm : s.speech_duration + fd ≥ cfg.min_speech_duration
    · simp [vad_step, h, hm]
    · simp [vad_step, h, hm]
  · intro h
    simp only [vad_step, if_neg h]
    exact ⟨(update_state_preserves_durations cfg _).2.1,
           (update_state_preserves_durations cfg _).1⟩

/-- Witness for C3 at concrete inputs: a probability-1 frame is a speech
frame and sets the fields accordingly; a probability-0 frame is a
non-speech frame and accumulates silence. -/
theorem C3_frame_classification_witness :
    ((1:ℚ) > defaultVADConfig.threshold_speech →
      vad_step defaultVADConfig 1 initVAD 1 =
        { silence_duration := 0,
          speech_duration := initVAD.speech_duration + 1,
          current_state := VoiceState.SPEECH,
          valid_speech_detected :=
            initVAD.valid_speech_detected ||
              decide (initVAD.speech_duration + 1 ≥
                defaultVADConfig.min_speech_duration) })
    ∧ (¬ (1:ℚ) > defaultVADConfig.threshold_speech →
        (vad_step defaultVADConfig 1 initVAD 1).speech_duration = 0 ∧
        (vad_step defaultVADConfig 1 initVAD 1).silence_duration =
          initVAD.silence_duration + 1) :=
  C3_frame_classification defaultVADConfig 1 initVAD 1

/-- C5: once `valid_speech_detected` is true it stays true after every
subsequent `process_audio` call (any probabilities, any count), and
`reset()` restores the full initial state: Silence, both durations 0,
`valid_speech_detected` false. -/
theorem C5_valid_speech_monotone_until_reset (cfg : VADConfig) (fd : ℚ)
    (s : VADState) (probs : List ℚ)
    (h : s.valid_speech_detected = true) :
    (run_vad cfg fd s probs).valid_speech_detected = true ∧
    reset s = { silence_duration := 0, speech_duration := 0,
                current_state := VoiceState.SILENCE,
                valid_speech_detected := false } ∧
    reset s = initVAD :=
  ⟨run_vad_valid_mono cfg fd probs s h, rfl, rfl⟩

/-- Witness for C5 at a concrete input: a validated state fed three
silent frames keeps `valid_speech_detected`, and its reset is the
initial state. -/
theorem C5_valid_speech_monotone_until_reset_witness :
    ((⟨0, 1, VoiceState.SPEECH, true⟩ : VADState).valid_speech_detected
      = true) ∧
    ((run_vad defaultVADConfig 1 ⟨0, 1, VoiceState.SPEECH, true⟩
        [0, 0, 0]).valid_speech_detected = true ∧
     reset ⟨0, 1, VoiceState.SPEECH, true⟩ =
       { silence_duration := 0, speech_duration := 0,
         current_state := VoiceState.SILENCE,
         valid_speech_detected := false } ∧
     reset ⟨0, 1, VoiceState.SPEECH, true⟩ = initVAD) :=
  ⟨rfl,
   C5_valid_speech_monotone_until_reset defaultVADConfig 1
     ⟨0, 1, VoiceState.SPEECH, true⟩ [0, 0, 0] rfl⟩

/-- C6 counterexample: a `VADConfig` whose silence durations are NOT
strictly increasing (short 5/2 > long 3/2 > max 4/5) is accepted by the
code's constructor (the dataclass performs no validation and cannot
fail), while the spec-mandated validating constructor would reject it
with `ConfigError`. -/
theorem C6_counterexample :
    mkVADConfig 16000 (1/2) (5/2) (3/2) (4/5) (1/2) =
      .ok { sample_rate := 16000, threshold_speech := 1/2,
            silence_duration_short := 5/2, silence_duration_long := 3/2,
            silence_duration_max := 4/5, min_speech_duration := 1/2 } ∧
    ¬ ((5:ℚ)/2 < 3/2) ∧
    mkVADConfigSpec 16000 (1/2) (5/2) (3/2) (4/5) (1/2) =
      .error .invalidConfig := by
  refine ⟨rfl, by norm_num, ?_⟩
  norm_num [mkVADConfigSpec]

/-- C6 amended: constructing a `VADConfig` performs no validation at
all — every combination of field values, including non-increasing
silence durations and non-positive sample rates, is accepted and stored
verbatim; no `ConfigError` is ever raised because no such check (and no
such error type) exists in the code. -/
theorem C6_no_construction_validation (sr : ℤ) (ts sds sdl sdm msd : ℚ) :
    mkVADConfig sr ts sds sdl sdm msd =
      .ok { sample_rate := sr, threshold_speech := ts,
            silence_duration_short := sds, silence_duration_long := sdl,
            silence_duration_max := sdm, min_speech_duration := msd } :=
  rfl

/-- C7: finalizing with an empty recording buffer always fails with the
empty-recording error (`ValueError("No audio data to save")`, the
spec's `EmptyRecordingError`) and never produces a written artifact
(the `.ok` branch carrying the written samples is never reached). -/
theorem C7_empty_buffer_finalize_fails (elapsed : ℚ) :
    save_recording [] elapsed = .error .emptyRecording :=
  rfl

/-- C10: calling `stop_recording()` while not recording with an empty
recording buffer returns `(None, 0)` — no error is raised and nothing
is written, in contrast with `_save_recording`'s failure on an empty
buffer. -/
theorem C10_stop_recording_empty_returns_none (s : RecorderState)
    (elapsed : ℚ) (h1 : s.recording_data = [])
    (_h2 : s.is_recording = false) :
    stop_recording s elapsed = .ok (none, 0) := by
  simp [stop_recording, h1]

/-- Witness for C10 at a concrete input: an idle session with an empty
buffer. -/
theorem C10_stop_recording_empty_returns_none_witness :
    (({ recording_data := [], buffer := [], vad := initVAD,
        speech_detected := false, is_recording := false,
        stop_requested := false } : RecorderState).recording_data = []) ∧
    stop_recording
      { recording_data := [], buffer := [], vad := initVAD,
        speech_detected := false, is_recording := false,
        stop_requested := false } 0 = .ok (none, 0) :=
  ⟨rfl,
   C10_stop_recording_empty_returns_none
     { recording_data := [], buffer := [], vad := initVAD,
       speech_detected := false, is_recording := false,
       stop_requested := false } 0 rfl rfl⟩

/-- C8: the detector normalizes every input frame and never errors: the
padded/truncated frame always has exactly 512 samples (zero-padding
short frames, truncating long ones), and the frame fed to the scorer is
the padded/truncated frame divided by its peak absolute sample unless
that peak is exactly zero, in which case it is passed through unchanged
— so no division by zero ever occurs and the scored frame always has
512 samples. -/
theorem C8_frame_normalization_total (chunk : List ℚ) :
    (pad_truncate chunk).length = 512 ∧
    (chunk.length ≤ 512 →
       pad_truncate chunk =
         chunk ++ List.replicate (512 - chunk.length) 0) ∧
    (512 < chunk.length → pad_truncate chunk = chunk.take 512) ∧
    (0 < maxAbs (pad_truncate chunk) →
       prep_frame chunk =
         (pad_truncate chunk).map
           (fun x => x / maxAbs (pad_truncate chunk))) ∧
    (maxAbs (pad_truncate chunk) = 0 →
       prep_frame chunk = pad_truncate chunk) ∧
    (prep_frame chunk).length = 512 := by
  have hlen : (pad_truncate chunk).length = 512 := by
    simp only [pad_truncate]
    split
    · split
      · simp only [List.length_append, List.length_replicate]
        omega
      · simp only [List.length_take]
        omega
    · omega
  have hpad : chunk.length ≤ 512 →
      pad_truncate chunk = chunk ++ List.replicate (512 - chunk.length) 0 := by
    intro hle
    simp only [pad_truncate]
    split
    · rw [if_pos (by omega)]
    · have h512 : chunk.length = 512 := by omega
      rw [h512]
      simp
  have htrunc : 512 < chunk.length → pad_truncate chunk = chunk.take 512 := by
    intro hgt
    simp only [pad_truncate]
    rw [if_pos (by omega), if_neg (by omega)]
  have hpos : 0 < maxAbs (pad_truncate chunk) →
      prep_frame chunk =
        (pad_truncate chunk).map
          (fun x => x / maxAbs (pad_truncate chunk)) := by
    intro hp
    simp only [prep_frame]
    rw [if_pos hp]
  have hzero : maxAbs (pad_truncate chunk) = 0 →
      prep_frame chunk = pad_truncate chunk := by
    intro hz
    simp only [prep_frame]
    rw [if_neg (by rw [hz]; exact lt_irrefl 0)]
  refine ⟨hlen, hpad, htrunc, hpos, hzero, ?_⟩
  by_cases hp : 0 < maxAbs (pad_truncate chunk)
  · rw [hpos hp, List.length_map, hlen]
  · rw [hzero (le_antisymm (not_lt.mp hp) (maxAbs_nonneg _)), hlen]

/-- Witness for C8 at a concrete input: a one-sample frame `[2]` is
zero-padded to 512 samples and peak-normalized. -/
theorem C8_frame_normalization_total_witness :
    (pad_truncate [(2:ℚ)]).length = 512 ∧
    (([(2:ℚ)].length ≤ 512) →
       pad_truncate [(2:ℚ)] =
         [(2:ℚ)] ++ List.replicate (512 - [(2:ℚ)].length) 0) ∧
    (512 < [(2:ℚ)].length → pad_truncate [(2:ℚ)] = [(2:ℚ)].take 512) ∧
    (0 < maxAbs (pad_truncate [(2:ℚ)]) →
       prep_frame [(2:ℚ)] =
         (pad_truncate [(2:ℚ)]).map
           (fun x => x / maxAbs (pad_truncate [(2:ℚ)]))) ∧
    (maxAbs (pad_truncate [(2:ℚ)]) = 0 →
       prep_frame [(2:ℚ)] = pad_truncate [(2:ℚ)]) ∧
    (prep_frame [(2:ℚ)]).length = 512 :=
  C8_frame_normalization_total [(2:ℚ)]

/-- C9: finalizing a non-empty buffer scales every sample by the single
positive constant `normalization_scale` (relative ratios preserved);
when the original peak is positive the finalized buffer's peak is
exactly 1, and when every original sample is zero the scale is 1, the
buffer is written unchanged, and its peak is 0. -/
theorem C9_finalize_peak_normalizes (data : List ℚ) (elapsed : ℚ)
    (h : data ≠ []) :
    0 < normalization_scale data ∧
    save_recording data elapsed =
      .ok (data.map (fun x => normalization_scale data * x), elapsed) ∧
    (0 < maxAbs data →
       maxAbs (data.map (fun x => normalization_scale data * x)) = 1) ∧
    (maxAbs data = 0 →
       normalization_scale data = 1 ∧ (∀ x ∈ data, x = 0) ∧
       maxAbs (data.map (fun x => normalization_scale data * x)) = 0) := by
  by_cases hp : 0 < maxAbs data
  · have hscale : normalization_scale data = (maxAbs data)⁻¹ := by
      unfold normalization_scale
      rw [if_pos hp]
    have hmapeq : data.map (fun x => normalization_scale data * x) =
        data.map (fun x => x / maxAbs data) := by
      apply List.map_congr_left
      intro x _
      rw [hscale, div_eq_mul_inv, mul_comm]
    refine ⟨by rw [hscale]; exact inv_pos.mpr hp, ?_, ?_, ?_⟩
    · simp only [save_recording, if_neg h, if_pos hp, hmapeq]
    · intro _
      rw [hmapeq, maxAbs_map_div data _ hp, div_self (ne_of_gt hp)]
    · intro h0
      rw [h0] at hp
      exact absurd hp (lt_irrefl 0)
  · have h0 : maxAbs data = 0 :=
      le_antisymm (not_lt.mp hp) (maxAbs_nonneg data)
    have hscale : normalization_scale data = 1 := by
      unfold normalization_scale
      rw [if_neg hp]
    have hmapeq : data.map (fun x => normalization_scale data * x) = data := by
      rw [hscale]
      simp
    refine ⟨by rw [hscale]; exact one_pos, ?_, ?_, ?_⟩
    · simp only [save_recording, if_neg h, if_neg hp, hmapeq]
    · intro hpos
      exact absurd hpos hp
    · intro _
      exact ⟨hscale, (maxAbs_eq_zero_iff data).mp h0, by rw [hmapeq, h0]⟩

/-- Witness for C9 at a concrete input: finalizing the buffer `[1/2]`
writes `[1]`, scaled by the positive constant 2, with peak exactly 1. -/
theorem C9_finalize_peak_normalizes_witness :
    ([(1:ℚ)/2] ≠ ([] : List ℚ)) ∧
    (0 < normalization_scale [(1:ℚ)/2] ∧
     save_recording [(1:ℚ)/2] 0 =
       .ok ([(1:ℚ)/2].map
         (fun x => normalization_scale [(1:ℚ)/2] * x), 0) ∧
     (0 < maxAbs [(1:ℚ)/2] →
        maxAbs ([(1:ℚ)/2].map
          (fun x => normalization_scale [(1:ℚ)/2] * x)) = 1) ∧
     (maxAbs [(1:ℚ)/2] = 0 →
        normalization_scale [(1:ℚ)/2] = 1 ∧ (∀ x ∈ [(1:ℚ)/2], x = 0) ∧
        maxAbs ([(1:ℚ)/2].map
          (fun x => normalization_scale [(1:ℚ)/2] * x)) = 0)) :=
  ⟨by simp, C9_finalize_peak_normalizes [(1:ℚ)/2] 0 (by simp)⟩

/-- C4: for any scripted probability sequence made of a non-empty run of
speech frames whose total duration reaches `min_speech_duration`,
followed by non-speech frames, `should_stop_recording` after the first
`k` non-speech frames is true exactly when `k ≥ 1` and the cumulative
silence `k · fd` has reached `silence_duration_max` — since cumulative
silence grows monotonically, it first becomes true exactly at the frame
where cumulative silence first reaches the threshold and is false at
every earlier frame after the speech run. -/
theorem C4_stop_ordering (cfg : VADConfig) (fd : ℚ) (hfd : 0 < fd)
    (sp si : List ℚ) (hspne : sp ≠ [])
    (hsp : ∀ p ∈ sp, p > cfg.threshold_speech)
    (_hmin : cfg.min_speech_duration ≤ sp.length * fd)
    (hsi : ∀ p ∈ si, ¬ p > cfg.threshold_speech)
    (k : ℕ) (hk : k ≤ si.length) :
    should_stop_recording (run_vad cfg fd initVAD (sp ++ si.take k)) =
      (decide (1 ≤ k) &&
       decide (cfg.silence_duration_max ≤ k * fd)) := by
  have hsplit : run_vad cfg fd initVAD (sp ++ si.take k) =
      run_vad cfg fd (run_vad cfg fd initVAD sp) (si.take k) := by
    simp [run_vad, List.foldl_append]
  obtain ⟨hst, hsd⟩ := run_vad_speech_run cfg fd sp hspne hsp initVAD
  obtain ⟨-, hiff⟩ :=
    run_vad_silence_run cfg fd hfd si hsi _ hst hsd k hk
  rw [hsplit]
  simp only [should_stop_recording]
  rw [← Bool.decide_and]
  exact decide_eq_decide.mpr hiff

/-- Witness for C4 at a concrete input: with the default config and
1-second frames, one speech frame (probability 1) then three silent
frames; after the third silent frame cumulative silence 3 ≥ max 5/2,
so the stop decision is true there. -/
theorem C4_stop_ordering_witness :
    (0 < (1:ℚ)) ∧
    should_stop_recording
      (run_vad defaultVADConfig 1 initVAD
        ([1] ++ [0, 0, 0].take 3)) =
      (decide (1 ≤ 3) &&
       decide (defaultVADConfig.silence_duration_max ≤ (3:ℕ) * (1:ℚ))) :=
  ⟨one_pos,
   C4_stop_ordering defaultVADConfig 1 one_pos [1] [0, 0, 0]
     (by simp)
     (by
       intro p hp
       simp only [List.mem_singleton] at hp
       subst hp
       norm_num [defaultVADConfig])
     (by norm_num [defaultVADConfig])
     (by
       intro p hp
       simp only [List.mem_cons, List.not_mem_nil, or_false] at hp
       rcases hp with rfl | rfl | rfl <;> norm_num [defaultVADConfig])
     3 (by simp)⟩

/-- The detector state after the recorder processes the 512-sample block
at the front of its sliding window (the buffer with `indata` appended),
as done in `audio_callback`. -/
def vad_after (scorer : List ℚ → ℚ) (cfg : VADConfig)
    (s : RecorderState) (indata : List ℚ) : VADState :=
  (process_audio scorer cfg s.vad ((s.buffer ++ indata).take 512)
    (512 / 16000)).1

/-- The latched `speech_detected` session flag right after that block is
processed (`audio_callback` lines 62-63). -/
def speech_detected_after (scorer : List ℚ → ℚ) (cfg : VADConfig)
    (s : RecorderState) (indata : List ℚ) : Bool :=
  if (process_audio scorer cfg s.vad ((s.buffer ++ indata).take 512)
      (512 / 16000)).2.2.2 then true
  else s.speech_detected

/-- C1: whenever a full VAD frame is processed (the sliding window holds
at least 512 samples), the callback stops the recording (raises
`CallbackStop` and clears `is_recording`) precisely when a manual stop
was requested or validated speech has been detected and the detector's
should-stop check (state = Silence) holds; in particular a requested
manual stop always ends the session, even with no validated speech. -/
theorem C1_stop_policy (scorer : List ℚ → ℚ) (cfg : VADConfig)
    (s : RecorderState) (indata : List ℚ)
    (hlen : 512 ≤ (s.buffer ++ indata).length) :
    ((audio_callback scorer cfg s indata).2 = true ↔
      (s.stop_requested = true ∨
        (speech_detected_after scorer cfg s indata = true ∧
         should_stop_recording (vad_after scorer cfg s indata) = true)))
    ∧ ((audio_callback scorer cfg s indata).2 = true →
        (audio_callback scorer cfg s indata).1.is_recording = false)
    ∧ (s.stop_requested = true →
        (audio_callback scorer cfg s indata).2 = true) := by
  have hge : (s.buffer ++ indata).length ≥ 512 := hlen
  simp only [audio_callback, if_pos hge, vad_after, speech_detected_after]
  generalize process_audio scorer cfg s.vad
      ((s.buffer ++ indata).take 512) (512 / 16000) = r
  obtain ⟨vad1, st, prob, vs⟩ := r
  cases vs <;> cases hsr : s.stop_requested <;>
    cases hss : should_stop_recording vad1 <;>
      cases hsd : s.speech_detected <;> simp_all

/-- Witness for C1 at a concrete input: 512 buffered zero samples with a
manual stop requested — the callback stops even though no validated
speech ever occurred. -/
theorem C1_stop_policy_witness :
    (512 ≤ ((List.replicate 512 (0:ℚ)) ++ ([] : List ℚ)).length) ∧
    (((audio_callback (fun _ => 0) defaultVADConfig
        { recording_data := [], buffer := List.replicate 512 (0:ℚ),
          vad := initVAD, speech_detected := false, is_recording := true,
          stop_requested := true } []).2 = true ↔
      (({ recording_data := [], buffer := List.replicate 512 (0:ℚ),
          vad := initVAD, speech_detected := false, is_recording := true,
          stop_requested := true } : RecorderState).stop_requested = true ∨
        (speech_detected_after (fun _ => 0) defaultVADConfig
          { recording_data := [], buffer := List.replicate 512 (0:ℚ),
            vad := initVAD, speech_detected := false, is_recording := true,
            stop_requested := true } [] = true ∧
         should_stop_recording (vad_after (fun _ => 0) defaultVADConfig
          { recording_data := [], buffer := List.replicate 512 (0:ℚ),
            vad := initVAD, speech_detected := false, is_recording := true,
            stop_requested := true } []) = true)))
    ∧ ((audio_callback (fun _ => 0) defaultVADConfig
        { recording_data := [], buffer := List.replicate 512 (0:ℚ),
          vad := initVAD, speech_detected := false, is_recording := true,
          stop_requested := true } []).2 = true →
        (audio_callback (fun _ => 0) defaultVADConfig
          { recording_data := [], buffer := List.replicate 512 (0:ℚ),
            vad := initVAD, speech_detected := false, is_recording := true,
            stop_requested := true } []).1.is_recording = false)
    ∧ (({ recording_data := [], buffer := List.replicate 512 (0:ℚ),
          vad := initVAD, speech_detected := false, is_recording := true,
          stop_requested := true } : RecorderState).stop_requested = true →
        (audio_callback (fun _ => 0) defaultVADConfig
          { recording_data := [], buffer := List.replicate 512 (0:ℚ),
            vad := initVAD, speech_detected := false, is_recording := true,
            stop_requested := true } []).2 = true)) :=
  ⟨by rw [List.append_nil, List.length_replicate],
   C1_stop_policy (fun _ => 0) defaultVADConfig
     { recording_data := [], buffer := List.replicate 512 (0:ℚ),
       vad := initVAD, speech_detected := false, is_recording := true,
       stop_requested := true } []
     (by rw [List.append_nil, List.length_replicate])⟩

end OtisScribe
